import Mathlib

/-!
Verification development for the session portal and terminal bridge.

The definitions below are a shallow embedding of the repository source:

* namespace `Portal` embeds `src/portal/main.py` (the `PortAllocator`,
  `SessionInfo` data model and the `SessionManager` operations
  `create_session`, `launch_session`, `stop_session`, `update_session`);
  external calls (loopback connect probes, `docker run` / `docker rm -f`,
  git clone, template writes) are represented by an explicit effect log
  and by outcome oracles, since their results come from the environment.
* namespace `Terminal` embeds `src/server/terminal.py`
  (`TerminalSession.read`, the reader drain loop, construction with its
  descriptor cleanup, and `TerminalManager.ensure` with the one-way
  host-shell fallback).
* namespace `AppModel` embeds the path resolution and the three
  file handlers of `src/server/app.py` over a component-list model of
  resolved absolute paths.

Mutable objects are passed as explicit state; Python exceptions are
`Option`/`Except` results; wall-clock readings, generated identifiers and
secrets are oracle parameters.
-/

namespace Portal

/-- Association-list lookup; stands for Python dict lookup. -/
def alookup {α β : Type} [DecidableEq α] (k : α) : List (α × β) → Option β
  | [] => none
  | (k', v) :: rest => if k = k' then some v else alookup k rest

/-- Association-list key removal; stands for Python dict `pop(k, None)`. -/
def removeKey {α β : Type} [DecidableEq α] (k : α) : List (α × β) → List (α × β)
  | [] => []
  | (k', v) :: rest => if k' = k then removeKey k rest else (k', v) :: removeKey k rest

/-- Observable side effects of the portal manager on its environment. -/
inductive Effect
  | netProbe (port : Nat)
  | removeContainer (name : String)
  | runContainer (name : String) (port : Nat)
deriving DecidableEq

/-- `SessionStatus` from `portal/main.py`. -/
inductive SessionStatus
  | pending
  | launching
  | running
  | error
  | stopped
deriving DecidableEq

/-- `SessionInfo` from `portal/main.py`; `datetime` values are modelled as
natural-number clock readings and `Path` values as strings. -/
structure SessionInfo where
  id : String
  projectName : String
  gitUrl : Option String
  workspaceDir : String
  port : Nat
  password : String
  containerName : String
  status : SessionStatus
  createdAt : Nat
  updatedAt : Nat
  errorMessage : Option String
  accessUrl : Option String
deriving DecidableEq

/-- `PortAllocator` state: the fixed range `[start, end)`, the rotating
cursor `next` and the lease table `allocated` (port to owning session).
The Python attribute `_end` is `endP` here because `end` is reserved. -/
structure PortAllocator where
  start : Nat
  endP : Nat
  next : Nat
  allocated : List (Nat × String)
deriving DecidableEq

/-- Cursor rotation from `acquire`: increment, wrapping at `endP` back to
`start`. -/
def rotate (a : PortAllocator) : Nat :=
  if a.next + 1 ≥ a.endP then a.start else a.next + 1

/-- A candidate port is unusable when it is already leased or the loopback
connect probe (`_is_port_in_use`) finds it accepting connections. The probe
result is the oracle `inUse`. -/
def blockedPort (inUse : Nat → Bool) (allocated : List (Nat × String)) (p : Nat) : Bool :=
  (alookup p allocated).isSome || inUse p

/-- The scan loop of `PortAllocator.acquire`: the Python `for` runs
`end - start` times, which is the `fuel` argument. Returns the result
(`none` models the `RuntimeError` raised on exhaustion) together with the
log of loopback probes performed. The probe runs only for candidates that
are not already leased, exactly as in the source. -/
def acquireLoop (inUse : Nat → Bool) (sid : String) :
    Nat → PortAllocator → Option (Nat × PortAllocator) × List Effect
  | 0, _ => (none, [])
  | fuel + 1, a =>
    let candidate := a.next
    let a' : PortAllocator := { a with next := rotate a }
    if (alookup candidate a.allocated).isSome then
      acquireLoop inUse sid fuel a'
    else if inUse candidate then
      let res := acquireLoop inUse sid fuel a'
      (res.1, Effect.netProbe candidate :: res.2)
    else
      (some (candidate, { a' with allocated := (candidate, sid) :: a'.allocated }),
        [Effect.netProbe candidate])

/-- `PortAllocator.acquire`. -/
def PortAllocator.acquire (inUse : Nat → Bool) (sid : String) (a : PortAllocator) :
    Option (Nat × PortAllocator) × List Effect :=
  acquireLoop inUse sid (a.endP - a.start) a

/-- `PortAllocator.release`: drop the lease for `port`, a no-op when the
port is not leased. -/
def PortAllocator.release (a : PortAllocator) (port : Nat) : PortAllocator :=
  { a with allocated := removeKey port a.allocated }

/- The acquire-scan lemmas live in the theorem section below. -/

/-- The lowercase-letter / digit whitelist of `slugify`. -/
def allowedChar (c : Char) : Bool :=
  ('a' ≤ c && c ≤ 'z') || ('0' ≤ c && c ≤ '9')

/-- Character loop of `slugify`, carrying the `prev_dash` flag. -/
def slugifyAux : List Char → Bool → List Char → List Char
  | [], _, acc => acc
  | c :: rest, prevDash, acc =>
    if allowedChar c then slugifyAux rest false (acc ++ [c])
    else if c.isAlphanum then slugifyAux rest false (acc ++ [c.toLower])
    else if prevDash then slugifyAux rest true acc
    else slugifyAux rest true (acc ++ ['-'])

/-- Python `str.strip(chars)` over component characters: drop the matching
characters from both ends. -/
def stripWhile (p : Char → Bool) (l : List Char) : List Char :=
  ((l.dropWhile p).reverse.dropWhile p).reverse

/-- ASCII whitespace, for the leading `value.strip()`. -/
def isSpaceChar (c : Char) : Bool :=
  (c = ' ') || (c = '\t') || (c = '\n') || (c = '\r') || (c = '\x0b') || (c = '\x0c')

/-- The final `strip("-")` of `slugify`. -/
def stripDash (l : List Char) : List Char :=
  stripWhile (fun c => c = '-') l

/-- `slugify` from `portal/main.py`: strip, lowercase, then the character
loop and the final dash strip (the Python `str.isalnum` is modelled by the
ASCII `Char.isAlphanum`). -/
def slugify (value : String) : String :=
  String.mk (stripDash (slugifyAux ((stripWhile isSpaceChar value.data).map Char.toLower)
    false []))

/-- `SessionManager` state: the session registry and the port allocator. -/
structure SessionManager where
  sessions : List (String × SessionInfo)
  ports : PortAllocator
deriving DecidableEq

/-- Registry write `self._sessions[sid] = s`. -/
def setSession (st : SessionManager) (sid : String) (s : SessionInfo) : SessionManager :=
  { st with sessions := (sid, s) :: removeKey sid st.sessions }

/-- `SessionManager.update_session`: sets the status when given, always
refreshes `updated_at`, always overwrites `error_message` with the `error`
argument (whose default is `None`), and sets `access_url` when given. -/
def update_session (now : Nat) (s : SessionInfo) (status : Option SessionStatus)
    (error : Option String) (access_url : Option String) : SessionInfo :=
  let s1 := match status with
    | some st => { s with status := st }
    | none => s
  let s2 := { s1 with updatedAt := now, errorMessage := error }
  match access_url with
  | some u => { s2 with accessUrl := some u }
  | none => s2

/-- `DEFAULT_ACCESS_HOST` with its default value. -/
def DEFAULT_ACCESS_HOST : String := "127.0.0.1"

/-- `SessionManager.create_session`. Oracle arguments: `inUse` is the
loopback probe, `session_id` the generated `uuid4` prefix, `timestamp` the
formatted clock reading used in the folder name, `now` the clock reading
stored in the record, `password` the generated secret. The body performs
no filesystem call; its only environment interaction is the probes done
inside `acquire`, which the effect log records. `none` models the
`RuntimeError` that `acquire` raises on exhaustion. -/
def create_session (inUse : Nat → Bool) (session_id : String) (timestamp : String)
    (now : Nat) (password : String) (git_url : String) (project_name : String)
    (st : SessionManager) : Option (SessionInfo × SessionManager) × List Effect :=
  let slug := if project_name ≠ "" then slugify project_name else ""
  let folder_name := timestamp ++ "-" ++ (if slug = "" then session_id else slug)
  let workspace_dir := "session/" ++ folder_name
  let acq := PortAllocator.acquire inUse session_id st.ports
  match acq.1 with
  | none => (none, acq.2)
  | some (port, ports') =>
    let container_slug0 := slugify ("vscode-" ++ project_name ++ "-" ++ session_id)
    let container_slug := if container_slug0 = "" then "session-" ++ session_id
      else container_slug0
    let container_name := "portal-" ++ container_slug
    let session : SessionInfo := {
      id := session_id
      projectName := if project_name = "" then folder_name else project_name
      gitUrl := if git_url = "" then none else some git_url
      workspaceDir := workspace_dir
      port := port
      password := password
      containerName := container_name
      status := SessionStatus.pending
      createdAt := now
      updatedAt := now
      errorMessage := none
      accessUrl := none }
    let st' : SessionManager :=
      { sessions := (session_id, session) :: removeKey session_id st.sessions
        ports := ports' }
    (some (session, st'), acq.2)

/-- Outcome of one launch step (`_prepare_workspace`,
`_apply_devcontainer_template`, or the `docker run` of `_start_container`);
`fail msg` models the step raising with message `msg`. -/
inductive StepResult
  | ok
  | fail (msg : String)
deriving DecidableEq

/-- Environment outcomes for the three launch steps. -/
structure LaunchEnv where
  prepare : StepResult
  template : StepResult
  startContainer : StepResult
deriving DecidableEq

/-- The message of the first failing launch step, if any. -/
def firstFailure (env : LaunchEnv) : Option String :=
  match env.prepare with
  | StepResult.fail m => some m
  | StepResult.ok =>
    match env.template with
    | StepResult.fail m => some m
    | StepResult.ok =>
      match env.startContainer with
      | StepResult.fail m => some m
      | StepResult.ok => none

/-- The `except` block of `launch_session`: release the port, best-effort
remove the container (`_stop_container` swallows its own errors, so this
is a total function), and record `Error` with the causing message. The
`effs` argument carries the effects of the steps already run. Also
returns the statuses the session passed through, for trace reasoning. -/
def launch_rollback (now : Nat) (sid : String) (st1 : SessionManager) (s1 : SessionInfo)
    (msg : String) (effs : List Effect) :
    SessionManager × List Effect × List SessionStatus :=
  let ports' := st1.ports.release s1.port
  let s2 := update_session now s1 (some SessionStatus.error) (some msg) none
  (setSession { st1 with ports := ports' } sid s2,
    effs ++ [Effect.removeContainer s1.containerName],
    [SessionStatus.launching, SessionStatus.error])

/-- `SessionManager.launch_session`. A missing identifier is the caught
`KeyError`: the function returns with no change. Otherwise the session
moves to `Launching`, the three steps run in order (`_start_container`
first force-removes any stale container with the deterministic name), and
either `Running` with the access URL or the rollback of `launch_rollback`
follows. The third component lists the statuses assigned to the session,
in order. -/
def launch_session (env : LaunchEnv) (now : Nat) (session_id : String)
    (st : SessionManager) : SessionManager × List Effect × List SessionStatus :=
  match alookup session_id st.sessions with
  | none => (st, [], [])
  | some session =>
    let s1 := update_session now session (some SessionStatus.launching) none none
    let st1 := setSession st session_id s1
    match env.prepare with
    | StepResult.fail m => launch_rollback now session_id st1 s1 m []
    | StepResult.ok =>
      match env.template with
      | StepResult.fail m => launch_rollback now session_id st1 s1 m []
      | StepResult.ok =>
        match env.startContainer with
        | StepResult.fail m =>
          launch_rollback now session_id st1 s1 m
            [Effect.removeContainer s1.containerName,
             Effect.runContainer s1.containerName s1.port]
        | StepResult.ok =>
          let url := "http://" ++ DEFAULT_ACCESS_HOST ++ ":" ++ toString s1.port ++
            "/?folder=/workspace"
          let s2 := update_session now s1 (some SessionStatus.running) none (some url)
          (setSession st1 session_id s2,
            [Effect.removeContainer s1.containerName,
             Effect.runContainer s1.containerName s1.port],
            [SessionStatus.launching, SessionStatus.running])

/-- `SessionManager.stop_session`: a missing identifier is the caught
`KeyError` (silent return); otherwise force-remove the container, release
the port and record `Stopped`. -/
def stop_session (now : Nat) (session_id : String) (st : SessionManager) :
    SessionManager × List Effect × List SessionStatus :=
  match alookup session_id st.sessions with
  | none => (st, [], [])
  | some session =>
    let ports' := st.ports.release session.port
    let s' := update_session now session (some SessionStatus.stopped) none none
    (setSession { st with ports := ports' } session_id s',
      [Effect.removeContainer session.containerName],
      [SessionStatus.stopped])

/-- Status of a session in the registry. -/
def getStatus (st : SessionManager) (sid : String) : Option SessionStatus :=
  (alookup sid st.sessions).map SessionInfo.status

/-- Error message of a session in the registry. -/
def getError (st : SessionManager) (sid : String) : Option (Option String) :=
  (alookup sid st.sessions).map SessionInfo.errorMessage

/-- Recognizes the loopback probe effects. -/
def isNetProbe : Effect → Bool
  | Effect.netProbe _ => true
  | _ => false

/-- Operations a caller can direct at an existing session: a launch with
the given step outcomes, or a stop. The clock reading is part of the
operation. -/
inductive SessionOp
  | launch (env : LaunchEnv) (now : Nat)
  | stop (now : Nat)

/-- Run one operation against the manager; returns the new state and the
statuses assigned to the targeted session during the operation. -/
def runOp (sid : String) (st : SessionManager) : SessionOp → SessionManager × List SessionStatus
  | SessionOp.launch env now =>
    let r := launch_session env now sid st
    (r.1, r.2.2)
  | SessionOp.stop now =>
    let r := stop_session now sid st
    (r.1, r.2.2)

/-- The statuses a session passes through under a sequence of operations. -/
def opsTrace (sid : String) (st : SessionManager) : List SessionOp → List SessionStatus
  | [] => []
  | op :: rest =>
    let r := runOp sid st op
    r.2 ++ opsTrace sid r.1 rest

/-- The transition relation asserted by the specification: `Pending` to
`Launching` to `Running` or `Error`, and `Running` or `Error` to
`Stopped`. -/
def claimedEdge : SessionStatus → SessionStatus → Bool
  | SessionStatus.pending, SessionStatus.launching => true
  | SessionStatus.launching, SessionStatus.running => true
  | SessionStatus.launching, SessionStatus.error => true
  | SessionStatus.running, SessionStatus.stopped => true
  | SessionStatus.error, SessionStatus.stopped => true
  | _, _ => false

/-- The transition relation the code actually follows: a launch enters
`Launching` from any status and then assigns `Running` or `Error`; a stop
assigns `Stopped` from any status. `Pending` is never re-entered. -/
def amendedEdge : SessionStatus → SessionStatus → Bool
  | _, SessionStatus.launching => true
  | SessionStatus.launching, SessionStatus.running => true
  | SessionStatus.launching, SessionStatus.error => true
  | _, SessionStatus.stopped => true
  | _, _ => false

/-- Concrete session used by witnesses and counterexamples. -/
def sampleSession : SessionInfo := {
  id := "a"
  projectName := "p"
  gitUrl := none
  workspaceDir := "session/ts-p"
  port := 20000
  password := "pw"
  containerName := "portal-c"
  status := SessionStatus.pending
  createdAt := 0
  updatedAt := 0
  errorMessage := none
  accessUrl := none }

/-- Concrete manager state holding `sampleSession` with its leased port. -/
def sampleState : SessionManager := {
  sessions := [("a", sampleSession)]
  ports := { start := 20000, endP := 21000, next := 20001, allocated := [(20000, "a")] } }

/-- Launch environment in which all three steps succeed. -/
def envOk : LaunchEnv where
  prepare := StepResult.ok
  template := StepResult.ok
  startContainer := StepResult.ok

/-- Launch environment whose first step (workspace preparation) raises. -/
def failEnv : LaunchEnv where
  prepare := StepResult.fail "boom"
  template := StepResult.ok
  startContainer := StepResult.ok

/-- Probe oracle that finds every port free. -/
def inUseW : Nat → Bool := fun _ => false

/-- Fresh allocator over the default range. -/
def aW : PortAllocator := { start := 20000, endP := 21000, next := 20000, allocated := [] }

/-- Allocator state after `aW` hands port 20000 to owner `w`. -/
def aW' : PortAllocator where
  start := 20000
  endP := 21000
  next := 20001
  allocated := [(20000, "w")]

/-- Two-port allocator whose whole range is already leased. -/
def a2W : PortAllocator where
  start := 40000
  endP := 40002
  next := 40000
  allocated := [(40000, "x"), (40001, "y")]

/-- Manager state with no sessions and a fresh allocator. -/
def freshState : SessionManager := { sessions := [], ports := aW }

/-- Placeholder record for `Option.getD`. -/
def defaultSession : SessionInfo := sampleSession

/-- A concrete `create_session` call on the fresh state. -/
def createC7 : Option (SessionInfo × SessionManager) × List Effect :=
  create_session inUseW "ab12" "ts" 0 "pw" "" "demo" freshState

/-- The session record produced by `createC7`. -/
def sessionC7 : SessionInfo := (createC7.1.getD (defaultSession, freshState)).1

/-- The manager state produced by `createC7`. -/
def stateC7 : SessionManager := (createC7.1.getD (defaultSession, freshState)).2

/-- A session already in the `Stopped` state. -/
def stoppedSession : SessionInfo := { sampleSession with status := SessionStatus.stopped }

/-- State where the stopped session's old port 20000 has since been leased
to another owner `b`. -/
def stoppedState : SessionManager := {
  sessions := [("a", stoppedSession)]
  ports := { start := 20000, endP := 21000, next := 20001, allocated := [(20000, "b")] } }

/-- Manager state whose two-port allocator range is fully leased, so the
next create fails with the port exhaustion error. -/
def exhaustState : SessionManager := { sessions := [], ports := a2W }

end Portal

namespace Terminal

/-- State guarded by the `TerminalSession` lock: the append-only output
buffer (bytes as naturals) and the closed flag. -/
structure TermState where
  buffer : List Nat
  closed : Bool
deriving DecidableEq

/-- `TerminalSession.read`: clamp the requested offset into
`[0, len(buffer)]`, return the unchanged state, the new offset (the buffer
length), the bytes from the clamped offset to the end, and the closed
snapshot. Total: no offset is rejected. -/
def read (st : TermState) (offset : Int) : TermState × Int × List Nat × Bool :=
  let o1 : Int := if offset < 0 then 0 else offset
  let o2 : Int := if o1 > (st.buffer.length : Int) then (st.buffer.length : Int) else o1
  (st, (st.buffer.length : Int), st.buffer.drop o2.toNat, st.closed)

/-- The two mutations the session state admits: the reader thread appends
a chunk, or the session is marked closed. -/
inductive SessEvent
  | append (chunk : List Nat)
  | close
deriving DecidableEq

/-- Apply one mutation. -/
def applyEvent (st : TermState) : SessEvent → TermState
  | SessEvent.append c => { st with buffer := st.buffer ++ c }
  | SessEvent.close => { st with closed := true }

/-- Bytes an event adds to the buffer. -/
def eventBytes : SessEvent → List Nat
  | SessEvent.append c => c
  | SessEvent.close => []

/-- The `_drain_output` loop, after the child process has exited, with the
chunks still queued in the PTY given as `q`. Mirrors the source: while
data is ready the loop reads and appends a chunk (an empty read means the
descriptor reached end of file and breaks the loop); when nothing is
ready it breaks; the `finally` block then marks the session closed.
Returns the final state and the mutations in order. -/
def drainLoop (st : TermState) : List (List Nat) → TermState × List SessEvent
  | [] => ({ st with closed := true }, [SessEvent.close])
  | c :: rest =>
    if c.isEmpty then ({ st with closed := true }, [SessEvent.close])
    else
      let r := drainLoop { st with buffer := st.buffer ++ c } rest
      (r.1, SessEvent.append c :: r.2)

/-- `ContainerBackend` descriptor from `server/terminal.py`. -/
structure ContainerBackend where
  runtime : String
  label : String
  image : String
  extra_args : List String
deriving DecidableEq

/-- `ContainerBackend.describe`. -/
def ContainerBackend.describe (b : ContainerBackend) : String :=
  b.label ++ " 컨테이너 · 이미지 " ++ b.image

/-- The manager-visible view of one `TerminalSession`. -/
structure TerminalHandle where
  closed : Bool
  backendDescription : String
deriving DecidableEq

/-- `TerminalManager` state: registry and the cached backend selection. -/
structure TerminalManager where
  terminals : List (String × TerminalHandle)
  backend : Option ContainerBackend
deriving DecidableEq

/-- Construction oracle: outcome of building a `TerminalSession` against a
given backend choice (`RuntimeError` is the `Except` error). -/
def Spawn : Type := Option ContainerBackend → Except String TerminalHandle

/-- Registry write. -/
def setTerminal (tm : TerminalManager) (sid : String) (t : TerminalHandle) : TerminalManager :=
  { tm with terminals := (sid, t) :: Portal.removeKey sid tm.terminals }

/-- A new terminal must be built when none is registered or the registered
one has closed. -/
def needsNew (sid : String) (tm : TerminalManager) : Bool :=
  match Portal.alookup sid tm.terminals with
  | none => true
  | some t => t.closed

/-- The construction path of `ensure`: try the cached backend; on a
`RuntimeError` with a container backend cached, clear the cache
permanently and retry once against the host shell (`none`), propagating
that retry's failure; with no backend cached, propagate immediately.
Returns the result, the new manager state (registered only on success) and
the list of backend choices attempted, in order. -/
def ensureNew (spawn : Spawn) (sid : String) (tm : TerminalManager) :
    Except String TerminalHandle × TerminalManager × List (Option ContainerBackend) :=
  match spawn tm.backend with
  | Except.ok t => (Except.ok t, setTerminal tm sid t, [tm.backend])
  | Except.error e =>
    match tm.backend with
    | some _ =>
      let tm1 := { tm with backend := none }
      match spawn none with
      | Except.ok t => (Except.ok t, setTerminal tm1 sid t, [tm.backend, none])
      | Except.error e2 => (Except.error e2, tm1, [tm.backend, none])
    | none => (Except.error e, tm, [tm.backend])

/-- `TerminalManager.ensure`: return the live registered terminal, or
construct one via `ensureNew`. -/
def ensure (spawn : Spawn) (sid : String) (tm : TerminalManager) :
    Except String TerminalHandle × TerminalManager × List (Option ContainerBackend) :=
  match Portal.alookup sid tm.terminals with
  | some t =>
    if t.closed then ensureNew spawn sid tm
    else (Except.ok t, tm, [])
  | none => ensureNew spawn sid tm

/-- A sequence of `ensure` calls; collects every backend choice attempted
across the whole sequence. -/
def runEnsures : List (Spawn × String) → TerminalManager → TerminalManager × List (Option ContainerBackend)
  | [], tm => (tm, [])
  | (sp, sid) :: rest, tm =>
    let r := ensure sp sid tm
    let rr := runEnsures rest r.2.1
    (rr.1, r.2.2 ++ rr.2)

/-- Descriptor-level events of `TerminalSession.__init__`. -/
inductive FdEvent
  | spawnAttempt
  | closedFd (fd : Nat)
deriving DecidableEq

/-- The wrapped message `__init__` raises when spawning fails: the
container and host paths use different prefixes. -/
def initErrorMsg (backend : Option ContainerBackend) (e : String) : String :=
  match backend with
  | some _ => "컨테이너를 시작하지 못했습니다: " ++ e
  | none => "셸을 시작하지 못했습니다: " ++ e

/-- The backend description `__init__` records on success. -/
def initDescription (backend : Option ContainerBackend) (shell : String) : String :=
  match backend with
  | some b => b.describe
  | none => "호스트 셸 · " ++ shell

/-- `TerminalSession.__init__` after `pty.openpty` returned the pair
`(master, slave)`: attempt the spawn (`spawnRes` is its outcome); on
success close only the slave descriptor and return the handle; on an
`OSError` close the slave then the master descriptor and raise the
wrapped `RuntimeError`. -/
def initSession (backend : Option ContainerBackend) (master slave : Nat)
    (spawnRes : Except String Unit) (shell : String) :
    Except String TerminalHandle × List FdEvent :=
  match spawnRes with
  | Except.ok _ =>
    (Except.ok { closed := false, backendDescription := initDescription backend shell },
      [FdEvent.spawnAttempt, FdEvent.closedFd slave])
  | Except.error e =>
    (Except.error (initErrorMsg backend e),
      [FdEvent.spawnAttempt, FdEvent.closedFd slave, FdEvent.closedFd master])

/-- Concrete backend used by witnesses. -/
def backendW : ContainerBackend where
  runtime := "docker"
  label := "Docker"
  image := "img"
  extra_args := []

/-- Spawn oracle that always fails. -/
def spawnFailW : Spawn := fun _ => Except.error "no pty"

/-- Spawn oracle that fails on the container backend and succeeds on the
host shell. -/
def spawnHostOkW : Spawn := fun b =>
  match b with
  | some _ => Except.error "no container"
  | none => Except.ok { closed := false, backendDescription := "host" }

/-- Manager state with the container backend cached and empty registry. -/
def tmW : TerminalManager := { terminals := [], backend := some backendW }

/-- Manager state with no backend cached. -/
def tmHostW : TerminalManager := { terminals := [], backend := none }

end Terminal

namespace AppModel

/-- `Path.resolve()` on a joined absolute path, modelled over lists of
components: `..` pops the last component (staying at the root when there
is none), `.` and empty components vanish. Symbolic links are outside the
model. -/
def normalizeComps (acc : List String) : List String → List String
  | [] => acc
  | c :: rest =>
    if c = ".." then normalizeComps acc.dropLast rest
    else if c = "." ∨ c = "" then normalizeComps acc rest
    else normalizeComps (acc ++ [c]) rest

/-- A non-empty request path after URL unquoting: either absolute (its
components replace the base, as in `Path` division) or relative to it. -/
structure RawPath where
  absolute : Bool
  comps : List String
deriving DecidableEq

/-- The resolved candidate `(base / unquote(raw)).resolve()`. -/
def resolveCandidate (base : List String) (r : RawPath) : List String :=
  normalizeComps [] (if r.absolute then r.comps else base ++ r.comps)

/-- `candidate == base or base in candidate.parents`: the candidate is the
workspace root itself or lies strictly below it. -/
def insideBase (base cand : List String) : Bool :=
  cand = base || (decide (base.length < cand.length) && cand.take base.length = base)

/-- The rejection message of `_resolve_session_path`. -/
def escapeMsg : String := "세션 디렉터리 밖의 경로는 접근할 수 없습니다."

/-- `WorkspaceRequestHandler._resolve_session_path`: an empty request
resolves to the workspace root; otherwise the joined, resolved candidate
is returned only when it stays inside the root, and the escape error is
raised otherwise. -/
def resolve_session_path (base : List String) (raw : Option RawPath) :
    Except String (List String) :=
  match raw with
  | none => Except.ok base
  | some r =>
    let candidate := resolveCandidate base r
    if insideBase base candidate then Except.ok candidate
    else Except.error escapeMsg

/-- HTTP reply of a handler. -/
inductive Response
  | ok (body : String)
  | badRequest (err : String)
deriving DecidableEq

/-- Filesystem accesses a handler can perform on a resolved target. -/
inductive FsEffect
  | listDir (p : List String)
  | readFile (p : List String)
  | writeFile (p : List String) (content : String)
deriving DecidableEq

/-- Filesystem oracle. -/
structure Fs where
  isDir : List String → Bool
  readText : List String → Option String

/-- `_handle_api_tree`: resolve, require a directory, list it. -/
def handle_api_tree (fs : Fs) (base : List String) (raw : Option RawPath) :
    Response × List FsEffect :=
  match resolve_session_path base raw with
  | Except.error e => (Response.badRequest e, [])
  | Except.ok target =>
    if fs.isDir target then (Response.ok "tree", [FsEffect.listDir target])
    else (Response.badRequest "디렉터리가 아닙니다.", [])

/-- `_handle_api_read_file`: resolve, reject directories, read the file
(`errors="replace"` decoding means the read itself yields text; a `none`
from the oracle is the caught `OSError`). -/
def handle_api_read_file (fs : Fs) (base : List String) (raw : Option RawPath) :
    Response × List FsEffect :=
  match resolve_session_path base raw with
  | Except.error e => (Response.badRequest e, [])
  | Except.ok target =>
    if fs.isDir target then (Response.badRequest "디렉터리는 열 수 없습니다.", [])
    else
      match fs.readText target with
      | some content => (Response.ok content, [FsEffect.readFile target])
      | none => (Response.badRequest "파일을 읽을 수 없습니다.", [FsEffect.readFile target])

/-- `_handle_api_write_file`: resolve, reject directories, write the
content. -/
def handle_api_write_file (fs : Fs) (base : List String) (raw : Option RawPath)
    (content : String) : Response × List FsEffect :=
  match resolve_session_path base raw with
  | Except.error e => (Response.badRequest e, [])
  | Except.ok target =>
    if fs.isDir target then
      (Response.badRequest "디렉터리는 파일로 저장할 수 없습니다.", [])
    else (Response.ok "ok", [FsEffect.writeFile target content])

/-- Concrete filesystem oracle for witnesses. -/
def fsW : Fs where
  isDir := fun p => p = ["workspace"]
  readText := fun _ => some "text"

/-- Concrete escaping request: `../etc` relative to base `workspace`. -/
def rawEscape : RawPath where
  absolute := false
  comps := ["..", "etc"]

end AppModel

/-! ## Helper lemmas -/

namespace Portal

theorem alookup_removeKey {α β : Type} [DecidableEq α] (k : α) (l : List (α × β)) :
    alookup k (removeKey k l) = none := by
  induction l with
  | nil => rfl
  | cons p rest ih =>
    obtain ⟨k', v⟩ := p
    by_cases h : k' = k
    · simp [removeKey, h, ih]
    · have hk : ¬ k = k' := fun hh => h hh.symm
      simp [removeKey, h, alookup, hk, ih]

theorem rotate_ge (a : PortAllocator) (h1 : a.start ≤ a.next) (h2 : a.next < a.endP) :
    a.start ≤ rotate a ∧ rotate a < a.endP := by
  unfold rotate
  split <;> omega

/-- Invariants carried by the acquire scan: the returned port comes from
the candidate range, was not leased, and passed the probe; the new lease
table is the old one with the new lease in front. -/
theorem acquireLoop_some_spec (inUse : Nat → Bool) (sid : String) :
    ∀ (fuel : Nat) (a : PortAllocator) (p : Nat) (a' : PortAllocator) (effs : List Effect),
      a.start ≤ a.next → a.next < a.endP →
      acquireLoop inUse sid fuel a = (some (p, a'), effs) →
      a.start ≤ p ∧ p < a.endP ∧ alookup p a.allocated = none ∧ inUse p = false ∧
        Effect.netProbe p ∈ effs ∧ a'.allocated = (p, sid) :: a.allocated ∧
        a'.start = a.start ∧ a'.endP = a.endP := by
  intro fuel
  induction fuel with
  | zero => intro a p a' effs _ _ h; simp [acquireLoop] at h
  | succ n ih =>
    intro a p a' effs h1 h2 h
    have hrot := rotate_ge a h1 h2
    simp only [acquireLoop] at h
    by_cases hl : (alookup a.next a.allocated).isSome
    · rw [if_pos hl] at h
      exact ih { a with next := rotate a } p a' effs hrot.1 hrot.2 h
    · rw [if_neg hl] at h
      by_cases hu : inUse a.next = true
      · rw [if_pos hu] at h
        have hfst : (acquireLoop inUse sid n { a with next := rotate a }).1 = some (p, a') :=
          congrArg Prod.fst h
        have hsnd : Effect.netProbe a.next ::
            (acquireLoop inUse sid n { a with next := rotate a }).2 = effs :=
          congrArg Prod.snd h
        have hpair : acquireLoop inUse sid n { a with next := rotate a } =
            (some (p, a'), (acquireLoop inUse sid n { a with next := rotate a }).2) := by
          rw [← hfst]
        have hspec := ih { a with next := rotate a } p a' _ hrot.1 hrot.2 hpair
        refine ⟨hspec.1, hspec.2.1, hspec.2.2.1, hspec.2.2.2.1, ?_,
          hspec.2.2.2.2.2.1, hspec.2.2.2.2.2.2.1, hspec.2.2.2.2.2.2.2⟩
        rw [← hsnd]
        exact List.mem_cons_of_mem _ hspec.2.2.2.2.1
      · rw [if_neg hu] at h
        rw [Prod.ext_iff] at h
        obtain ⟨hfst, hsnd⟩ := h
        simp only at hfst hsnd
        rw [Option.some.injEq, Prod.mk.injEq] at hfst
        obtain ⟨hp, ha'⟩ := hfst
        subst hp
        refine ⟨h1, h2, ?_, ?_, ?_, ?_, ?_, ?_⟩
        · cases hh : alookup a.next a.allocated with
          | none => rfl
          | some v => rw [hh] at hl; simp at hl
        · cases hv : inUse a.next with
          | true => exact absurd hv hu
          | false => rfl
        · rw [← hsnd]; exact List.mem_singleton.mpr rfl
        · rw [← ha']
        · rw [← ha']
        · rw [← ha']

/-- When every port of the candidate range is blocked, the scan returns
`none` for any fuel, i.e. `acquire` raises the exhaustion error. -/
theorem acquireLoop_all_blocked (inUse : Nat → Bool) (sid : String) :
    ∀ (fuel : Nat) (a : PortAllocator),
      a.start ≤ a.next → a.next < a.endP →
      (∀ q, a.start ≤ q → q < a.endP → blockedPort inUse a.allocated q = true) →
      (acquireLoop inUse sid fuel a).1 = none := by
  intro fuel
  induction fuel with
  | zero => intro a _ _ _; simp [acquireLoop]
  | succ n ih =>
    intro a h1 h2 hall
    have hrot := rotate_ge a h1 h2
    have hblock := hall a.next h1 h2
    simp only [acquireLoop]
    by_cases hl : (alookup a.next a.allocated).isSome
    · rw [if_pos hl]
      exact ih { a with next := rotate a } hrot.1 hrot.2 hall
    · rw [if_neg hl]
      have hu : inUse a.next = true := by
        unfold blockedPort at hblock
        cases hh : alookup a.next a.allocated with
        | some v => rw [hh] at hl; simp at hl
        | none => rw [hh] at hblock; simpa using hblock
      rw [if_pos hu]
      exact ih { a with next := rotate a } hrot.1 hrot.2 hall
/-- The `some` case of the scan keeps the exact lease-table shape, with no
range hypotheses needed. -/
theorem acquireLoop_some_allocated (inUse : Nat → Bool) (sid : String) :
    ∀ (fuel : Nat) (a : PortAllocator) (p : Nat) (a' : PortAllocator) (effs : List Effect),
      acquireLoop inUse sid fuel a = (some (p, a'), effs) →
      a'.allocated = (p, sid) :: a.allocated := by
  intro fuel
  induction fuel with
  | zero => intro a p a' effs h; simp [acquireLoop] at h
  | succ n ih =>
    intro a p a' effs h
    simp only [acquireLoop] at h
    by_cases hl : (alookup a.next a.allocated).isSome
    · rw [if_pos hl] at h
      exact ih { a with next := rotate a } p a' effs h
    · rw [if_neg hl] at h
      by_cases hu : inUse a.next = true
      · rw [if_pos hu] at h
        have hfst : (acquireLoop inUse sid n { a with next := rotate a }).1 = some (p, a') :=
          congrArg Prod.fst h
        have hpair : acquireLoop inUse sid n { a with next := rotate a } =
            (some (p, a'), (acquireLoop inUse sid n { a with next := rotate a }).2) := by
          rw [← hfst]
        exact ih { a with next := rotate a } p a' _ hpair
      · rw [if_neg hu] at h
        rw [Prod.ext_iff] at h
        obtain ⟨hfst, hsnd⟩ := h
        simp only at hfst
        rw [Option.some.injEq, Prod.mk.injEq] at hfst
        obtain ⟨hp, ha'⟩ := hfst
        subst hp
        rw [← ha']

/-- Every effect the scan logs is a loopback probe. -/
theorem acquireLoop_effects_netProbe (inUse : Nat → Bool) (sid : String) :
    ∀ (fuel : Nat) (a : PortAllocator),
      (acquireLoop inUse sid fuel a).2.all isNetProbe = true := by
  intro fuel
  induction fuel with
  | zero => intro a; simp [acquireLoop]
  | succ n ih =>
    intro a
    simp only [acquireLoop]
    by_cases hl : (alookup a.next a.allocated).isSome
    · rw [if_pos hl]
      exact ih { a with next := rotate a }
    · rw [if_neg hl]
      by_cases hu : inUse a.next = true
      · rw [if_pos hu]
        simp only [List.all_cons, isNetProbe, Bool.true_and]
        exact ih { a with next := rotate a }
      · rw [if_neg hu]
        simp [isNetProbe]

end Portal

/-! ## Claim theorems -/

/-- C4: for every terminal session and every integer offset, including
negative offsets and offsets beyond the end of the buffer, `read` clamps
the offset into `[0, buffer length]`, returns exactly the bytes of the
buffer from the clamped offset to its end together with a new offset equal
to the buffer length and the current closed flag, never rejects the call
(it is a total function that leaves the state unchanged), and re-reading
the same offset with no intervening append returns identical bytes and
the same closed flag. -/
theorem C4_read_clamps_and_is_idempotent (st : Terminal.TermState) (offset : Int) :
    (Terminal.read st offset).1 = st ∧
    (Terminal.read st offset).2.1 = (st.buffer.length : Int) ∧
    (Terminal.read st offset).2.2.1 =
      st.buffer.drop (min offset.toNat st.buffer.length) ∧
    (Terminal.read st offset).2.2.2 = st.closed ∧
    Terminal.read (Terminal.read st offset).1 offset = Terminal.read st offset := by
  have hclamp : (if (if offset < 0 then 0 else offset) > (st.buffer.length : Int) then
      (st.buffer.length : Int) else (if offset < 0 then 0 else offset)).toNat =
      min offset.toNat st.buffer.length := by
    split_ifs <;> omega
  refine ⟨rfl, rfl, ?_, rfl, rfl⟩
  simp only [Terminal.read]
  rw [hclamp]

/-- C5: the closed flag never reverts from true to false, the output
buffer is append-only (each admissible mutation only extends it), and no
byte is appended after the session is marked closed: the post-exit drain
loop appends every chunk still queued in the PTY and emits the close
mutation last, so the final buffer holds all remaining output and the
final state is closed. The hypothesis excludes empty chunks, which the
PTY delivers only at end of file, where nothing is queued behind them. -/
theorem C5_closed_monotone_buffer_append_only (st : Terminal.TermState)
    (q : List (List Nat)) (st2 : Terminal.TermState) (e : Terminal.SessEvent)
    (hq : ∀ c ∈ q, c ≠ []) (hcl : st2.closed = true) :
    (Terminal.drainLoop st q).1.closed = true ∧
    (Terminal.drainLoop st q).1.buffer = st.buffer ++ q.flatten ∧
    (Terminal.drainLoop st q).2 =
      q.map Terminal.SessEvent.append ++ [Terminal.SessEvent.close] ∧
    (Terminal.applyEvent st2 e).closed = true ∧
    (Terminal.applyEvent st2 e).buffer = st2.buffer ++ Terminal.eventBytes e := by
  have hmain : Terminal.drainLoop st q =
      ({ buffer := st.buffer ++ q.flatten, closed := true },
        q.map Terminal.SessEvent.append ++ [Terminal.SessEvent.close]) := by
    induction q generalizing st with
    | nil => simp [Terminal.drainLoop]
    | cons c rest ih =>
      have hc : c ≠ [] := hq c (List.mem_cons_self c rest)
      have hce : c.isEmpty = false := by
        cases c with
        | nil => exact absurd rfl hc
        | cons x xs => rfl
      have hrest : ∀ d ∈ rest, d ≠ [] := fun d hd => hq d (List.mem_cons_of_mem c hd)
      simp only [Terminal.drainLoop, hce, Bool.false_eq_true, if_neg, not_false_iff]
      rw [ih _ hrest]
      simp [List.append_assoc]
  refine ⟨by rw [hmain], by rw [hmain], by rw [hmain], ?_, ?_⟩
  · cases e <;> simp [Terminal.applyEvent, hcl]
  · cases e <;> simp [Terminal.applyEvent, Terminal.eventBytes]

/-- Witness for C5 at a concrete queue and state. -/
theorem C5_witness :
    (Terminal.drainLoop { buffer := [], closed := false } [[1], [2]]).1.closed = true ∧
    (Terminal.drainLoop { buffer := [], closed := false } [[1], [2]]).1.buffer =
      [] ++ [[1], [2]].flatten ∧
    (Terminal.drainLoop { buffer := [], closed := false } [[1], [2]]).2 =
      [[1], [2]].map Terminal.SessEvent.append ++ [Terminal.SessEvent.close] ∧
    (Terminal.applyEvent { buffer := [5], closed := true }
      (Terminal.SessEvent.append [7])).closed = true ∧
    (Terminal.applyEvent { buffer := [5], closed := true }
      (Terminal.SessEvent.append [7])).buffer =
      [5] ++ Terminal.eventBytes (Terminal.SessEvent.append [7]) :=
  C5_closed_monotone_buffer_append_only { buffer := [], closed := false } [[1], [2]]
    { buffer := [5], closed := true } (Terminal.SessEvent.append [7])
    (by decide) rfl

/-- C9: a workspace-relative request whose resolved absolute path lies
outside the workspace root is rejected by `_resolve_session_path` with the
escape error, and the tree, file-read and file-write handlers answer with
that error and perform no filesystem access on the resolved target. -/
theorem C9_path_escape_rejected (fs : AppModel.Fs) (base : List String)
    (r : AppModel.RawPath) (content : String)
    (hout : AppModel.insideBase base (AppModel.resolveCandidate base r) = false) :
    AppModel.resolve_session_path base (some r) = Except.error AppModel.escapeMsg ∧
    AppModel.handle_api_tree fs base (some r) =
      (AppModel.Response.badRequest AppModel.escapeMsg, []) ∧
    AppModel.handle_api_read_file fs base (some r) =
      (AppModel.Response.badRequest AppModel.escapeMsg, []) ∧
    AppModel.handle_api_write_file fs base (some r) content =
      (AppModel.Response.badRequest AppModel.escapeMsg, []) := by
  have hres : AppModel.resolve_session_path base (some r) =
      Except.error AppModel.escapeMsg := by
    simp [AppModel.resolve_session_path, hout]
  refine ⟨hres, ?_, ?_, ?_⟩
  · simp [AppModel.handle_api_tree, hres]
  · simp [AppModel.handle_api_read_file, hres]
  · simp [AppModel.handle_api_write_file, hres]

/-- Witness for C9: the request `../etc` escapes the root `workspace` and
all three handlers reject it without touching the filesystem. -/
theorem C9_witness :
    AppModel.resolve_session_path ["workspace"] (some AppModel.rawEscape) =
      Except.error AppModel.escapeMsg ∧
    AppModel.handle_api_tree AppModel.fsW ["workspace"] (some AppModel.rawEscape) =
      (AppModel.Response.badRequest AppModel.escapeMsg, []) ∧
    AppModel.handle_api_read_file AppModel.fsW ["workspace"] (some AppModel.rawEscape) =
      (AppModel.Response.badRequest AppModel.escapeMsg, []) ∧
    AppModel.handle_api_write_file AppModel.fsW ["workspace"] (some AppModel.rawEscape)
      "x" = (AppModel.Response.badRequest AppModel.escapeMsg, []) :=
  C9_path_escape_rejected AppModel.fsW ["workspace"] AppModel.rawEscape "x" (by decide)

/-- C2: under the allocator invariant (cursor inside the range), whenever
`acquire` returns a port it lies in `[start, end)`, was not in the lease
table for any owner, was probed and found not accepting connections, and
is leased to the caller afterwards; and on an allocator whose full
candidate range is blocked (leased or accepting connections), `acquire`
returns the no-ports-available error instead of a port. -/
theorem C2_acquire_contract (inUse : Nat → Bool) (sid : String) (a : Portal.PortAllocator)
    (p : Nat) (a' : Portal.PortAllocator) (effs : List Portal.Effect)
    (inUse2 : Nat → Bool) (sid2 : String) (a2 : Portal.PortAllocator)
    (hinv1 : a.start ≤ a.next) (hinv2 : a.next < a.endP)
    (hinv3 : a2.start ≤ a2.next) (hinv4 : a2.next < a2.endP)
    (hall : ∀ q, a2.start ≤ q → q < a2.endP →
      Portal.blockedPort inUse2 a2.allocated q = true) :
    (Portal.PortAllocator.acquire inUse sid a = (some (p, a'), effs) →
      a.start ≤ p ∧ p < a.endP ∧ Portal.alookup p a.allocated = none ∧
        inUse p = false ∧ Portal.Effect.netProbe p ∈ effs ∧
        Portal.alookup p a'.allocated = some sid) ∧
    (Portal.PortAllocator.acquire inUse2 sid2 a2).1 = none := by
  constructor
  · intro h
    have hspec := Portal.acquireLoop_some_spec inUse sid (a.endP - a.start) a p a' effs
      hinv1 hinv2 h
    refine ⟨hspec.1, hspec.2.1, hspec.2.2.1, hspec.2.2.2.1, hspec.2.2.2.2.1, ?_⟩
    rw [hspec.2.2.2.2.2.1]
    simp [Portal.alookup]
  · exact Portal.acquireLoop_all_blocked inUse2 sid2 (a2.endP - a2.start) a2 hinv3 hinv4 hall

/-- Witness for C2: the fresh allocator `aW` hands out port 20000 with the
contract satisfied, and the fully leased two-port allocator `a2W` fails. -/
theorem C2_witness :
    (Portal.aW.start ≤ 20000 ∧ 20000 < Portal.aW.endP ∧
      Portal.alookup 20000 Portal.aW.allocated = none ∧
      Portal.inUseW 20000 = false ∧
      Portal.Effect.netProbe 20000 ∈ [Portal.Effect.netProbe 20000] ∧
      Portal.alookup 20000 Portal.aW'.allocated = some "w") ∧
    (Portal.PortAllocator.acquire Portal.inUseW "z" Portal.a2W).1 = none := by
  have h := C2_acquire_contract Portal.inUseW "w" Portal.aW 20000 Portal.aW'
    [Portal.Effect.netProbe 20000] Portal.inUseW "z" Portal.a2W
    (by decide) (by decide) (by decide) (by decide)
    (by
      intro q h1 h2
      have hq : q = 40000 ∨ q = 40001 := by
        simp only [Portal.a2W] at h1 h2
        omega
      rcases hq with hq | hq <;> subst hq <;> decide)
  exact ⟨h.1 rfl, h.2⟩

/-- C1: when a session exists and any launch step fails with message `m`,
`launch_session` (a total function: the rollback swallows every secondary
error) leaves the session in status `Error` with `m` recorded as its error
message, removes the session's port from the lease table, and logs the
best-effort removal of the backend container bearing the session's
deterministic name. -/
theorem C1_launch_failure_rollback (env : Portal.LaunchEnv) (now : Nat) (sid : String)
    (st : Portal.SessionManager) (s : Portal.SessionInfo) (m : String)
    (hs : Portal.alookup sid st.sessions = some s)
    (hf : Portal.firstFailure env = some m) :
    Portal.getStatus (Portal.launch_session env now sid st).1 sid =
      some Portal.SessionStatus.error ∧
    Portal.getError (Portal.launch_session env now sid st).1 sid = some (some m) ∧
    Portal.alookup s.port (Portal.launch_session env now sid st).1.ports.allocated =
      none ∧
    Portal.Effect.removeContainer s.containerName ∈
      (Portal.launch_session env now sid st).2.1 := by
  cases hp : env.prepare with
  | fail m1 =>
    have hm : m1 = m := by
      unfold Portal.firstFailure at hf
      rw [hp] at hf
      exact Option.some.injEq .. ▸ hf
    subst hm
    simp [Portal.launch_session, hs, hp, Portal.launch_rollback, Portal.update_session,
      Portal.setSession, Portal.getStatus, Portal.getError, Portal.alookup,
      Portal.PortAllocator.release, Portal.alookup_removeKey]
  | ok =>
    cases ht : env.template with
    | fail m1 =>
      have hm : m1 = m := by
        unfold Portal.firstFailure at hf
        rw [hp, ht] at hf
        exact Option.some.injEq .. ▸ hf
      subst hm
      simp [Portal.launch_session, hs, hp, ht, Portal.launch_rollback,
        Portal.update_session, Portal.setSession, Portal.getStatus, Portal.getError,
        Portal.alookup, Portal.PortAllocator.release, Portal.alookup_removeKey]
    | ok =>
      cases hc : env.startContainer with
      | fail m1 =>
        have hm : m1 = m := by
          unfold Portal.firstFailure at hf
          rw [hp, ht, hc] at hf
          exact Option.some.injEq .. ▸ hf
        subst hm
        simp [Portal.launch_session, hs, hp, ht, hc, Portal.launch_rollback,
          Portal.update_session, Portal.setSession, Portal.getStatus, Portal.getError,
          Portal.alookup, Portal.PortAllocator.release, Portal.alookup_removeKey]
      | ok =>
        exfalso
        unfold Portal.firstFailure at hf
        rw [hp, ht, hc] at hf
        simp at hf

/-- Witness for C1: a launch of the sample session whose workspace
preparation fails with message `boom`. -/
theorem C1_witness :
    Portal.getStatus (Portal.launch_session Portal.failEnv 1 "a" Portal.sampleState).1
      "a" = some Portal.SessionStatus.error ∧
    Portal.getError (Portal.launch_session Portal.failEnv 1 "a" Portal.sampleState).1
      "a" = some (some "boom") ∧
    Portal.alookup Portal.sampleSession.port
      (Portal.launch_session Portal.failEnv 1 "a" Portal.sampleState).1.ports.allocated =
      none ∧
    Portal.Effect.removeContainer Portal.sampleSession.containerName ∈
      (Portal.launch_session Portal.failEnv 1 "a" Portal.sampleState).2.1 :=
  C1_launch_failure_rollback Portal.failEnv 1 "a" Portal.sampleState
    Portal.sampleSession "boom" (by decide) (by decide)

/-- C8 counterexample: stopping a session that is already `Stopped` does
not leave all state unchanged. In `stoppedState` the session `a` is
`Stopped` with `updated_at = 0` and its old port 20000 has since been
leased to owner `b`; the second stop at clock 1 refreshes `updated_at`
and removes the port-20000 lease of `b`, so the resulting state differs
from the initial one. -/
theorem C8_counterexample :
    (Portal.stop_session 1 "a" Portal.stoppedState).1 ≠ Portal.stoppedState ∧
    Portal.alookup 20000
      (Portal.stop_session 1 "a" Portal.stoppedState).1.ports.allocated = none ∧
    Portal.alookup 20000 Portal.stoppedState.ports.allocated = some "b" := by
  refine ⟨by decide, by decide, by decide⟩

/-- C8 amended: stopping an unknown session identifier raises no error and
leaves the manager state (all session fields and the allocator) unchanged
with no side effect; stopping an already-stopped session also raises no
error and keeps the status `Stopped`, but it refreshes the session's
`updated_at`, clears its error message, removes the session's port from
the lease table even if since re-leased, and re-issues the container
removal. -/
theorem C8_amended_stop_idempotency (now : Nat) (sid : String)
    (st : Portal.SessionManager) (now2 : Nat) (sid2 : String)
    (st2 : Portal.SessionManager) (s : Portal.SessionInfo)
    (hA : Portal.alookup sid st.sessions = none)
    (hB : Portal.alookup sid2 st2.sessions = some s)
    (_hS : s.status = Portal.SessionStatus.stopped) :
    Portal.stop_session now sid st = (st, [], []) ∧
    Portal.getStatus (Portal.stop_session now2 sid2 st2).1 sid2 =
      some Portal.SessionStatus.stopped ∧
    Portal.alookup sid2 (Portal.stop_session now2 sid2 st2).1.sessions =
      some { s with status := Portal.SessionStatus.stopped, updatedAt := now2, errorMessage := none } ∧
    Portal.alookup s.port
      (Portal.stop_session now2 sid2 st2).1.ports.allocated = none ∧
    (Portal.stop_session now2 sid2 st2).2.1 =
      [Portal.Effect.removeContainer s.containerName] := by
  refine ⟨?_, ?_, ?_, ?_, ?_⟩
  · simp [Portal.stop_session, hA]
  · simp [Portal.stop_session, hB, Portal.update_session, Portal.setSession,
      Portal.getStatus, Portal.alookup]
  · simp [Portal.stop_session, hB, Portal.update_session, Portal.setSession,
      Portal.alookup]
  · simp [Portal.stop_session, hB, Portal.setSession, Portal.PortAllocator.release,
      Portal.alookup_removeKey]
  · simp [Portal.stop_session, hB]

/-- Witness for C8 amended: stopping the unknown identifier `zz` on the
fresh state is a complete no-op, and re-stopping the stopped session `a`
behaves as the amended claim states. -/
theorem C8_witness :
    Portal.stop_session 1 "zz" Portal.freshState = (Portal.freshState, [], []) ∧
    Portal.getStatus (Portal.stop_session 1 "a" Portal.stoppedState).1 "a" =
      some Portal.SessionStatus.stopped ∧
    Portal.alookup "a" (Portal.stop_session 1 "a" Portal.stoppedState).1.sessions =
      some { Portal.stoppedSession with status := Portal.SessionStatus.stopped, updatedAt := 1, errorMessage := none } ∧
    Portal.alookup Portal.stoppedSession.port
      (Portal.stop_session 1 "a" Portal.stoppedState).1.ports.allocated = none ∧
    (Portal.stop_session 1 "a" Portal.stoppedState).2.1 =
      [Portal.Effect.removeContainer Portal.stoppedSession.containerName] :=
  C8_amended_stop_idempotency 1 "zz" Portal.freshState 1 "a" Portal.stoppedState
    Portal.stoppedSession (by decide) (by decide) (by decide)

/-- C7 counterexample: the claim that `create_session` never touches the
network fails on the first create against a fresh manager: the effect log
of the call contains the loopback connect probe of port 20000 performed
inside `PortAllocator.acquire` while the port lease is taken. -/
theorem C7_counterexample :
    (Portal.create_session Portal.inUseW "ab12" "ts" 0 "pw" "" "demo"
      Portal.freshState).2 = [Portal.Effect.netProbe 20000] := by
  decide

/-- C7 amended: for every call, `create_session` touches no filesystem
state and its only environment interaction is the loopback probes of the
port allocator (every logged effect is a probe, on successful and failing
calls alike); it fails exactly when `acquire` raises the port exhaustion
error; and when it returns a session, that session is recorded as
`Pending` in the registry and holds a port leased to it in the allocator
table. -/
theorem C7_amended_create (inUse : Nat → Bool) (session_id timestamp : String)
    (now : Nat) (password git_url project_name : String)
    (st : Portal.SessionManager) (s : Portal.SessionInfo)
    (st' : Portal.SessionManager) :
    ((Portal.create_session inUse session_id timestamp now password git_url
      project_name st).2.all Portal.isNetProbe = true) ∧
    ((Portal.create_session inUse session_id timestamp now password git_url
      project_name st).1 = none ↔
      (Portal.PortAllocator.acquire inUse session_id st.ports).1 = none) ∧
    ((Portal.create_session inUse session_id timestamp now password git_url
      project_name st).1 = some (s, st') →
      s.status = Portal.SessionStatus.pending ∧
      Portal.alookup s.port st'.ports.allocated = some session_id ∧
      Portal.alookup session_id st'.sessions = some s) := by
  cases hacq : (Portal.PortAllocator.acquire inUse session_id st.ports).1 with
  | none =>
    refine ⟨?_, ?_, ?_⟩
    · simp only [Portal.create_session, hacq]
      exact Portal.acquireLoop_effects_netProbe inUse session_id _ _
    · simp [Portal.create_session, hacq]
    · intro hsome
      simp only [Portal.create_session, hacq] at hsome
      exact Option.noConfusion hsome
  | some pr =>
    obtain ⟨port, ports'⟩ := pr
    have hfull : Portal.PortAllocator.acquire inUse session_id st.ports =
        (some (port, ports'),
          (Portal.PortAllocator.acquire inUse session_id st.ports).2) := by
      rw [← hacq]
    have hshape : ports'.allocated = (port, session_id) :: st.ports.allocated :=
      Portal.acquireLoop_some_allocated inUse session_id
        (st.ports.endP - st.ports.start) st.ports port ports' _ hfull
    refine ⟨?_, ?_, ?_⟩
    · simp only [Portal.create_session, hacq]
      exact Portal.acquireLoop_effects_netProbe inUse session_id _ _
    · simp [Portal.create_session, hacq]
    · intro hsome
      simp only [Portal.create_session, hacq] at hsome
      rw [Option.some.injEq, Prod.mk.injEq] at hsome
      obtain ⟨hsession, hstate⟩ := hsome
      subst hsession
      subst hstate
      refine ⟨rfl, ?_, ?_⟩
      · show Portal.alookup port ports'.allocated = some session_id
        rw [hshape]
        simp [Portal.alookup]
      · simp [Portal.alookup]

/-- Witness for C7 amended: the successful create of `createC7` (probes
only, session recorded `Pending` with its lease) and a create against the
fully leased `exhaustState` that fails, exercising the exhaustion side of
the equivalence in both directions. -/
theorem C7_witness :
    ((Portal.create_session Portal.inUseW "ab12" "ts" 0 "pw" "" "demo"
      Portal.freshState).2.all Portal.isNetProbe = true) ∧
    ((Portal.create_session Portal.inUseW "ab12" "ts" 0 "pw" "" "demo"
      Portal.freshState).1 = none ↔
      (Portal.PortAllocator.acquire Portal.inUseW "ab12"
        Portal.freshState.ports).1 = none) ∧
    Portal.sessionC7.status = Portal.SessionStatus.pending ∧
    Portal.alookup Portal.sessionC7.port Portal.stateC7.ports.allocated =
      some "ab12" ∧
    Portal.alookup "ab12" Portal.stateC7.sessions = some Portal.sessionC7 ∧
    ((Portal.create_session Portal.inUseW "zz" "ts" 0 "pw" "" "x"
      Portal.exhaustState).2.all Portal.isNetProbe = true) ∧
    (Portal.create_session Portal.inUseW "zz" "ts" 0 "pw" "" "x"
      Portal.exhaustState).1 = none := by
  have h1 := C7_amended_create Portal.inUseW "ab12" "ts" 0 "pw" "" "demo"
    Portal.freshState Portal.sessionC7 Portal.stateC7
  have h2 := C7_amended_create Portal.inUseW "zz" "ts" 0 "pw" "" "x"
    Portal.exhaustState Portal.sampleSession Portal.freshState
  have hsucc := h1.2.2 (by decide)
  exact ⟨h1.1, h1.2.1, hsucc.1, hsucc.2.1, hsucc.2.2, h2.1, h2.2.1.mpr (by decide)⟩

/-- A launch assigns either no status (unknown identifier) or `Launching`
followed by `Running` or by `Error`. -/
theorem launch_trace_shape (env : Portal.LaunchEnv) (now : Nat) (sid : String)
    (st : Portal.SessionManager) :
    (Portal.launch_session env now sid st).2.2 = [] ∨
    (Portal.launch_session env now sid st).2.2 =
      [Portal.SessionStatus.launching, Portal.SessionStatus.running] ∨
    (Portal.launch_session env now sid st).2.2 =
      [Portal.SessionStatus.launching, Portal.SessionStatus.error] := by
  cases h : Portal.alookup sid st.sessions with
  | none => left; simp [Portal.launch_session, h]
  | some s =>
    cases hp : env.prepare with
    | fail m =>
      right; right
      simp [Portal.launch_session, h, hp, Portal.launch_rollback]
    | ok =>
      cases ht : env.template with
      | fail m =>
        right; right
        simp [Portal.launch_session, h, hp, ht, Portal.launch_rollback]
      | ok =>
        cases hc : env.startContainer with
        | fail m =>
          right; right
          simp [Portal.launch_session, h, hp, ht, hc, Portal.launch_rollback]
        | ok =>
          right; left
          simp [Portal.launch_session, h, hp, ht, hc]

/-- A stop assigns either no status (unknown identifier) or `Stopped`. -/
theorem stop_trace_shape (now : Nat) (sid : String) (st : Portal.SessionManager) :
    (Portal.stop_session now sid st).2.2 = [] ∨
    (Portal.stop_session now sid st).2.2 = [Portal.SessionStatus.stopped] := by
  cases h : Portal.alookup sid st.sessions with
  | none => left; simp [Portal.stop_session, h]
  | some s => right; simp [Portal.stop_session, h]

theorem amendedEdge_to_launching (a : Portal.SessionStatus) :
    Portal.amendedEdge a Portal.SessionStatus.launching = true := by
  cases a <;> rfl

theorem amendedEdge_to_stopped (a : Portal.SessionStatus) :
    Portal.amendedEdge a Portal.SessionStatus.stopped = true := by
  cases a <;> rfl

/-- Every status trace, started from any previous status, follows the
amended transition relation. -/
theorem opsTrace_chain (sid : String) :
    ∀ (ops : List Portal.SessionOp) (st : Portal.SessionManager)
      (prev : Portal.SessionStatus),
      List.Chain' (fun a b => Portal.amendedEdge a b = true)
        (prev :: Portal.opsTrace sid st ops) := by
  intro ops
  induction ops with
  | nil => intro st prev; simp [Portal.opsTrace]
  | cons op rest ih =>
    intro st prev
    cases op with
    | launch env now =>
      simp only [Portal.opsTrace, Portal.runOp]
      rcases launch_trace_shape env now sid st with h | h | h <;> rw [h]
      · exact ih _ prev
      · simp only [List.cons_append, List.nil_append, List.chain'_cons]
        exact ⟨amendedEdge_to_launching prev, rfl,
          ih (Portal.launch_session env now sid st).1 Portal.SessionStatus.running⟩
      · simp only [List.cons_append, List.nil_append, List.chain'_cons]
        exact ⟨amendedEdge_to_launching prev, rfl,
          ih (Portal.launch_session env now sid st).1 Portal.SessionStatus.error⟩
    | stop now =>
      simp only [Portal.opsTrace, Portal.runOp]
      rcases stop_trace_shape now sid st with h | h <;> rw [h]
      · exact ih _ prev
      · simp only [List.cons_append, List.nil_append, List.chain'_cons]
        exact ⟨amendedEdge_to_stopped prev,
          ih (Portal.stop_session now sid st).1 Portal.SessionStatus.stopped⟩

/-- No operation ever assigns `Pending`: it is only the initial status. -/
theorem opsTrace_no_pending (sid : String) :
    ∀ (ops : List Portal.SessionOp) (st : Portal.SessionManager),
      Portal.SessionStatus.pending ∉ Portal.opsTrace sid st ops := by
  intro ops
  induction ops with
  | nil => intro st; simp [Portal.opsTrace]
  | cons op rest ih =>
    intro st hmem
    simp only [Portal.opsTrace, Portal.runOp] at hmem
    cases op with
    | launch env now =>
      rcases List.mem_append.mp hmem with hin | hin
      · rcases launch_trace_shape env now sid st with h | h | h <;> rw [h] at hin <;>
          simp at hin
      · exact ih _ hin
    | stop now =>
      rcases List.mem_append.mp hmem with hin | hin
      · rcases stop_trace_shape now sid st with h | h <;> rw [h] at hin <;> simp at hin
      · exact ih _ hin

/-- C3 counterexample: the claimed relation (`Pending` to `Launching` to
`Running` or `Error`, and `Running` or `Error` to `Stopped`, with `Stopped`
terminal) is violated by reachable operation sequences. Stopping the
still-`Pending` sample session takes it straight from `Pending` to
`Stopped`; and the queued launch that runs after that stop re-enters
`Launching` from `Stopped` and then `Running`, so `Stopped` is not
terminal. -/
theorem C3_counterexample :
    Portal.opsTrace "a" Portal.sampleState [Portal.SessionOp.stop 1] =
      [Portal.SessionStatus.stopped] ∧
    Portal.claimedEdge Portal.SessionStatus.pending Portal.SessionStatus.stopped =
      false ∧
    Portal.opsTrace "a" Portal.sampleState
      [Portal.SessionOp.stop 1, Portal.SessionOp.launch Portal.envOk 2] =
      [Portal.SessionStatus.stopped, Portal.SessionStatus.launching,
        Portal.SessionStatus.running] ∧
    Portal.claimedEdge Portal.SessionStatus.stopped Portal.SessionStatus.launching =
      false := by
  refine ⟨by decide, rfl, by decide, rfl⟩

/-- C3 amended: for every session and every reachable sequence of launch
and stop operations after creation, consecutive statuses follow the
amended relation: any status can move to `Launching` (a launch has no
status guard) and to `Stopped` (a stop has none), `Launching` moves to
`Running` or `Error`, and `Pending` is never re-entered after creation. -/
theorem C3_amended_status_transitions (sid : String) (ops : List Portal.SessionOp)
    (st : Portal.SessionManager) (prev : Portal.SessionStatus) :
    List.Chain' (fun a b => Portal.amendedEdge a b = true)
      (prev :: Portal.opsTrace sid st ops) ∧
    Portal.SessionStatus.pending ∉ Portal.opsTrace sid st ops :=
  ⟨opsTrace_chain sid ops st prev, opsTrace_no_pending sid ops st⟩

/-- Witness for C3 amended at a concrete operation sequence. -/
theorem C3_witness :
    List.Chain' (fun a b => Portal.amendedEdge a b = true)
      (Portal.SessionStatus.pending ::
        Portal.opsTrace "a" Portal.sampleState
          [Portal.SessionOp.stop 1, Portal.SessionOp.launch Portal.envOk 2]) ∧
    Portal.SessionStatus.pending ∉
      Portal.opsTrace "a" Portal.sampleState
        [Portal.SessionOp.stop 1, Portal.SessionOp.launch Portal.envOk 2] :=
  C3_amended_status_transitions "a"
    [Portal.SessionOp.stop 1, Portal.SessionOp.launch Portal.envOk 2]
    Portal.sampleState Portal.SessionStatus.pending

/-- When no live terminal is registered, `ensure` takes the construction
path. -/
theorem ensure_of_needsNew (spawn : Terminal.Spawn) (sid : String)
    (tm : Terminal.TerminalManager) (hN : Terminal.needsNew sid tm = true) :
    Terminal.ensure spawn sid tm = Terminal.ensureNew spawn sid tm := by
  unfold Terminal.needsNew at hN
  unfold Terminal.ensure
  cases hl : Portal.alookup sid tm.terminals with
  | none => rfl
  | some t =>
    rw [hl] at hN
    simp only at hN
    simp [hN]

/-- With no backend cached, one `ensure` call keeps the cache empty and
attempts only the host-shell path. -/
theorem ensureNew_backend_none (spawn : Terminal.Spawn) (sid : String)
    (tm : Terminal.TerminalManager) (h : tm.backend = none) :
    (Terminal.ensureNew spawn sid tm).2.1.backend = none ∧
    (Terminal.ensureNew spawn sid tm).2.2.all (fun c => c.isNone) = true := by
  cases hs : spawn none with
  | ok t => simp [Terminal.ensureNew, h, hs, Terminal.setTerminal]
  | error e => simp [Terminal.ensureNew, h, hs]

/-- Same statement for `ensure` itself. -/
theorem ensure_backend_none (spawn : Terminal.Spawn) (sid : String)
    (tm : Terminal.TerminalManager) (h : tm.backend = none) :
    (Terminal.ensure spawn sid tm).2.1.backend = none ∧
    (Terminal.ensure spawn sid tm).2.2.all (fun c => c.isNone) = true := by
  unfold Terminal.ensure
  cases hl : Portal.alookup sid tm.terminals with
  | none => exact ensureNew_backend_none spawn sid tm h
  | some t =>
    cases hc : t.closed with
    | true =>
      simp only [hc, if_true]
      exact ensureNew_backend_none spawn sid tm h
    | false => simp [hc, h]

/-- With no backend cached, a whole sequence of `ensure` calls keeps the
cache empty and never attempts a container backend. -/
theorem runEnsures_backend_none :
    ∀ (calls : List (Terminal.Spawn × String)) (tm : Terminal.TerminalManager),
      tm.backend = none →
      (Terminal.runEnsures calls tm).1.backend = none ∧
      (Terminal.runEnsures calls tm).2.all (fun c => c.isNone) = true := by
  intro calls
  induction calls with
  | nil => intro tm h; simpa [Terminal.runEnsures] using h
  | cons c rest ih =>
    intro tm h
    obtain ⟨sp, sid⟩ := c
    have h1 := ensure_backend_none sp sid tm h
    have h2 := ih (Terminal.ensure sp sid tm).2.1 h1.1
    simp only [Terminal.runEnsures]
    exact ⟨h2.1, by simp [List.all_append, h1.2, h2.2]⟩

/-- C6: when no live terminal is registered, the cached backend is a
container backend, and construction against it fails, `ensure` clears the
cached selection, attempts exactly the container path followed once by the
host-shell path, and returns whatever the host-shell attempt produced
(propagating its failure); and from any manager state whose cache is
already cleared, a later `ensure` call, and any sequence of later calls,
keeps the cache cleared and never attempts the container backend again. -/
theorem C6_container_fallback_is_permanent (spawn : Terminal.Spawn) (sid : String)
    (tm : Terminal.TerminalManager) (b : Terminal.ContainerBackend) (e : String)
    (spawn2 : Terminal.Spawn) (sid2 : String) (tm2 : Terminal.TerminalManager)
    (calls : List (Terminal.Spawn × String))
    (hN : Terminal.needsNew sid tm = true)
    (hB : tm.backend = some b)
    (hF : spawn (some b) = Except.error e)
    (hB2 : tm2.backend = none) :
    (Terminal.ensure spawn sid tm).2.1.backend = none ∧
    (Terminal.ensure spawn sid tm).2.2 = [some b, none] ∧
    (Terminal.ensure spawn sid tm).1 = spawn none ∧
    (Terminal.ensure spawn2 sid2 tm2).2.2.all (fun c => c.isNone) = true ∧
    (Terminal.runEnsures calls tm2).1.backend = none ∧
    (Terminal.runEnsures calls tm2).2.all (fun c => c.isNone) = true := by
  have hEq := ensure_of_needsNew spawn sid tm hN
  have h123 : (Terminal.ensureNew spawn sid tm).2.1.backend = none ∧
      (Terminal.ensureNew spawn sid tm).2.2 = [some b, none] ∧
      (Terminal.ensureNew spawn sid tm).1 = spawn none := by
    cases hs : spawn none with
    | ok t => simp [Terminal.ensureNew, hB, hF, hs, Terminal.setTerminal]
    | error e2 => simp [Terminal.ensureNew, hB, hF, hs]
  rw [hEq]
  exact ⟨h123.1, h123.2.1, h123.2.2,
    (ensure_backend_none spawn2 sid2 tm2 hB2).2,
    (runEnsures_backend_none calls tm2 hB2).1,
    (runEnsures_backend_none calls tm2 hB2).2⟩

/-- Witness for C6: on `tmW` (container backend cached, empty registry),
the oracle `spawnHostOkW` fails for the container and succeeds for the
host shell; later calls start from `tmHostW` whose cache is empty. -/
theorem C6_witness :
    (Terminal.ensure Terminal.spawnHostOkW "s" Terminal.tmW).2.1.backend = none ∧
    (Terminal.ensure Terminal.spawnHostOkW "s" Terminal.tmW).2.2 =
      [some Terminal.backendW, none] ∧
    (Terminal.ensure Terminal.spawnHostOkW "s" Terminal.tmW).1 =
      Terminal.spawnHostOkW none ∧
    (Terminal.ensure Terminal.spawnFailW "t" Terminal.tmHostW).2.2.all
      (fun c => c.isNone) = true ∧
    (Terminal.runEnsures [(Terminal.spawnFailW, "t")] Terminal.tmHostW).1.backend =
      none ∧
    (Terminal.runEnsures [(Terminal.spawnFailW, "t")] Terminal.tmHostW).2.all
      (fun c => c.isNone) = true :=
  C6_container_fallback_is_permanent Terminal.spawnHostOkW "s" Terminal.tmW
    Terminal.backendW "no container" Terminal.spawnFailW "t" Terminal.tmHostW
    [(Terminal.spawnFailW, "t")] rfl rfl rfl rfl

/-- C10: when spawning the backend process fails during construction, the
constructor closes the slave and then the master pseudo-terminal
descriptor before raising its wrapped error; and when construction fails
through `ensure` (the container attempt and the one host-shell retry both
failing, or the host attempt failing with no backend cached), the registry
of the manager is left unchanged. -/
theorem C10_init_failure_cleanup (backend : Option Terminal.ContainerBackend)
    (master slave : Nat) (e : String) (shell : String)
    (spawn : Terminal.Spawn) (sid : String) (tm : Terminal.TerminalManager)
    (b : Terminal.ContainerBackend) (e1 e2 : String)
    (spawn3 : Terminal.Spawn) (sid3 : String) (tm3 : Terminal.TerminalManager)
    (e3 : String)
    (hN : Terminal.needsNew sid tm = true)
    (hB : tm.backend = some b)
    (hF1 : spawn (some b) = Except.error e1)
    (hF2 : spawn none = Except.error e2)
    (hN3 : Terminal.needsNew sid3 tm3 = true)
    (hB3 : tm3.backend = none)
    (hF3 : spawn3 none = Except.error e3) :
    (Terminal.initSession backend master slave (Except.error e) shell).2 =
      [Terminal.FdEvent.spawnAttempt, Terminal.FdEvent.closedFd slave,
        Terminal.FdEvent.closedFd master] ∧
    (Terminal.initSession backend master slave (Except.error e) shell).1 =
      Except.error (Terminal.initErrorMsg backend e) ∧
    (Terminal.ensure spawn sid tm).2.1.terminals = tm.terminals ∧
    (Terminal.ensure spawn3 sid3 tm3).2.1.terminals = tm3.terminals := by
  refine ⟨rfl, rfl, ?_, ?_⟩
  · rw [ensure_of_needsNew spawn sid tm hN]
    simp [Terminal.ensureNew, hB, hF1, hF2]
  · rw [ensure_of_needsNew spawn3 sid3 tm3 hN3]
    simp [Terminal.ensureNew, hB3, hF3]

/-- Witness for C10 at concrete descriptors and managers. -/
theorem C10_witness :
    (Terminal.initSession (some Terminal.backendW) 3 4 (Except.error "x")
      "/bin/bash").2 =
      [Terminal.FdEvent.spawnAttempt, Terminal.FdEvent.closedFd 4,
        Terminal.FdEvent.closedFd 3] ∧
    (Terminal.initSession (some Terminal.backendW) 3 4 (Except.error "x")
      "/bin/bash").1 =
      Except.error (Terminal.initErrorMsg (some Terminal.backendW) "x") ∧
    (Terminal.ensure Terminal.spawnFailW "s" Terminal.tmW).2.1.terminals =
      Terminal.tmW.terminals ∧
    (Terminal.ensure Terminal.spawnFailW "t" Terminal.tmHostW).2.1.terminals =
      Terminal.tmHostW.terminals :=
  C10_init_failure_cleanup (some Terminal.backendW) 3 4 "x" "/bin/bash"
    Terminal.spawnFailW "s" Terminal.tmW Terminal.backendW "no pty" "no pty"
    Terminal.spawnFailW "t" Terminal.tmHostW "no pty"
    rfl rfl rfl rfl rfl rfl rfl
